import Mathlib

/-!
Verification of the ripl LISP front end (reader + evaluator).

This file is a shallow embedding of the following parts of the source:

* `src/ripl/bases.py`: the value classes `Symbol`, `Keyword`, `RList`,
  `EmptyList`, `RVector`, `RDict`, `RString`, the `Scope` chain-map,
  `nested_scope`, `get_global_scope` and `RiplFunc`;
* `src/ripl/backend.py`: the `RIPL_TAGS` master-regex lexer (`Reader.lex`)
  and the recursive parser (`Reader.parse`, `Reader._parse_vector`,
  `Reader._parse_dict`);
* `src/ripl/evaluators.py`: `Evaluator.eval`.

Modelling conventions:

* Python values are the inductive `Value`.  Class identity that matters for
  dispatch is kept: `RList` vs `EmptyList` (the `cls` tag on `.rlist`),
  `RVector` vs plain `list` (the Bool on `.vec`).
* Python exceptions are the inductive `Err`; `try/except` is case analysis
  on `Except`.
* Mutable scopes (`collections.ChainMap`) are threaded functionally: every
  evaluation step returns the updated chain of its input scope.  All writes
  in the source go to the first frame of the current chain
  (`ChainMap.__setitem__`), so this is faithful for every execution path
  exercised below; aliasing between a closure's captured chain and a
  caller's chain is not observable in any of those paths.
* Python `float`/`complex` literals are carried as their source text
  (`.vfloat`/`.vcpx`); no claim computes with them.
* `evaluators.py` does `from ripl.bases import ... Func ...`, a name
  `bases.py` does not define (the class is `RiplFunc`, whose constructor
  has the signature `eval` uses).  The embedding reads `Func` as
  `RiplFunc`, i.e. the `.closure` value.
* Unbounded recursion (evaluator loop, lexer re-lexing of quote sugar,
  parser) is given explicit fuel; every theorem is stated for all fuel
  values or at a concrete ample fuel.
-/

namespace Ripl

/-- Error values modelling the Python exception classes raised by the code
under study.  `synErr` is `SyntaxError`, `nameErr` is `NameError`,
`unboundLocal` is `UnboundLocalError` (reading a local before assignment),
`stopIter` is a `StopIteration` escaping a generator/`next` call,
`unmodeledBuiltin` marks a builtin procedure outside the modelled subset
(no claim applies one), and `outOfFuel` is the fuel bound of the embedding
(not a Python behaviour). -/
inductive Err where
  | synErr (msg : String)
  | nameErr (msg : String)
  | typeErr (msg : String)
  | keyErr
  | indexErr
  | valueErr
  | attrErr
  | stopIter
  | unboundLocal (name : String)
  | unmodeledBuiltin (name : String)
  | outOfFuel
deriving DecidableEq, Repr

/-- Class tag separating plain `RList` instances from `EmptyList`-class
instances (`EmptyList` subclasses `RList` and overrides `__eq__`).  An
`EmptyList` instance is created empty, but `RList._cons` mutates its
receiver in place, so an `EmptyList`-class value can become non-empty. -/
inductive RCls where
  | plain
  | emptyCls
deriving DecidableEq, Repr

/-- The Python values manipulated by the reader and evaluator.
`.vec true` is an `RVector`, `.vec false` a plain `list` (the parser's
`yield []` and `RVector._cons`'s `list.__add__` result are plain lists).
`.str` is `RString`.  `.closure` is `RiplFunc` (docstring dropped: nothing
reads it).  `.builtin` is a named host procedure from
`get_global_scope`. -/
inductive Value where
  | vint (n : Int)
  | vbool (b : Bool)
  | vnone
  | vfloat (txt : String)
  | vcpx (txt : String)
  | sym (s : String)
  | kw (s : String)
  | str (s : String)
  | rlist (cls : RCls) (xs : List Value)
  | vec (isRV : Bool) (xs : List Value)
  | dict (entries : List (Value × Value))
  | tup (xs : List Value)
  | closure (params : Value) (body : Value) (scope : List (List (Value × Value)))
  | builtin (name : String)
deriving Repr

/-- A single scope frame: one Python `dict` keyed by (hashable) values,
kept in insertion order as `dict` does. -/
abbrev Frame := List (Value × Value)

/-- A `collections.ChainMap`: the first frame is the innermost scope. -/
abbrev ScopeC := List Frame

/-- The `EmptyList()` sentinel value. -/
def emptyRL : Value := .rlist .emptyCls []

mutual

/-- Truthiness of the result of `EmptyList.__eq__(self, other)` from
`bases.py`: `True` when `other is None`; when `other` is an `RList`-class
value, `True` iff `other` is empty (the receiver's own contents are never
consulted); every other case returns a falsy `None`/`False`. -/
def emptyListEq : Value → Bool
  | .vnone => true
  | .rlist _ ys => ys.isEmpty
  | _ => false

/-- Truthiness of the Python comparison `a == b` for the value model.
Dispatch follows Python's rule: the left operand's `__eq__` runs first
unless the right operand's type is a proper subclass overriding `__eq__`
(relevant exactly for `EmptyList <: RList`), and `NotImplemented`/falsy
returns fall back to the reflected call and then to identity (false for
distinct structural values).  Cross-kind numeric comparison with opaque
float/complex literals is not modelled (no claim makes one). -/
def pyEq : Value → Value → Bool
  | .rlist .emptyCls _, b => emptyListEq b
  | a, .rlist .emptyCls _ => emptyListEq a
  | .rlist .plain xs, .rlist .plain ys => pyEqList xs ys
  | .vnone, .vnone => true
  | .vint a, .vint b => a == b
  | .vint a, .vbool b => a == (if b then 1 else 0)
  | .vbool a, .vint b => (if a then (1 : Int) else 0) == b
  | .vbool a, .vbool b => a == b
  | .sym a, .sym b => a == b
  | .kw a, .kw b => a == b
  | .str a, .str b => a == b
  | .vec _ xs, .vec _ ys => pyEqList xs ys
  | .tup xs, .tup ys => pyEqList xs ys
  | .dict xs, .dict ys => pyEqPairs xs ys
  | .vfloat a, .vfloat b => a == b
  | .vcpx a, .vcpx b => a == b
  | _, _ => false

/-- Elementwise sequence equality (`deque`/`list`/`tuple` `__eq__`). -/
def pyEqList : List Value → List Value → Bool
  | [], [] => true
  | a :: as_, b :: bs => pyEq a b && pyEqList as_ bs
  | _, _ => false

/-- Dict equality, modelled as ordered entry-list equality.  (Python dict
equality is order-insensitive; no claim compares two dicts, so entry order
never differs in any term below.) -/
def pyEqPairs : List (Value × Value) → List (Value × Value) → Bool
  | [], [] => true
  | (k1, v1) :: r1, (k2, v2) :: r2 => pyEq k1 k2 && pyEq v1 v2 && pyEqPairs r1 r2
  | _, _ => false

end

/-- Python truthiness (`bool(v)`) for the modelled values.  Opaque float
and complex literals are taken truthy: no claim branches on them. -/
def truthy : Value → Bool
  | .vnone => false
  | .vbool b => b
  | .vint n => n != 0
  | .vfloat _ => true
  | .vcpx _ => true
  | .str s => s != ""
  | .rlist _ xs => !xs.isEmpty
  | .vec _ xs => !xs.isEmpty
  | .dict xs => !xs.isEmpty
  | .tup xs => !xs.isEmpty
  | .sym _ => true
  | .kw _ => true
  | .closure _ _ _ => true
  | .builtin _ => true

/-- `isinstance(v, collections.Container)`: the classes with a
`__contains__` among the modelled values (`deque`, `list`, `dict`, `str`,
`tuple`). -/
def isContainer : Value → Bool
  | .rlist _ _ => true
  | .vec _ _ => true
  | .dict _ => true
  | .str _ => true
  | .tup _ => true
  | _ => false

mutual

/-- Hashability: sequences and dicts are unhashable; a tuple is hashable
iff its elements are. -/
def hashableV : Value → Bool
  | .rlist _ _ => false
  | .vec _ _ => false
  | .dict _ => false
  | .tup xs => hashableVL xs
  | _ => true

/-- Hashability of every element of a list. -/
def hashableVL : List Value → Bool
  | [] => true
  | x :: xs => hashableV x && hashableVL xs

end

/-- Python `len(v)`: `TypeError` for objects without `__len__`. -/
def pyLen : Value → Except Err Nat
  | .str s => .ok s.length
  | .rlist _ xs => .ok xs.length
  | .vec _ xs => .ok xs.length
  | .tup xs => .ok xs.length
  | .dict xs => .ok xs.length
  | _ => .error (.typeErr "object has no len")

/-- Python `iter(v)` materialised: sequence elements, string characters
(as one-character strings), dict keys; `none` when `iter` would raise
`TypeError`. -/
def iterElems : Value → Option (List Value)
  | .rlist _ xs => some xs
  | .vec _ xs => some xs
  | .tup xs => some xs
  | .str s => some (s.toList.map (fun c => Value.str (String.singleton c)))
  | .dict xs => some (xs.map (·.1))
  | _ => none

/-- Sequence index values: `int` and `bool` (an `int` subclass). -/
def toIndex : Value → Option Int
  | .vint n => some n
  | .vbool b => some (if b then 1 else 0)
  | _ => none

/-- Sequence `__getitem__` with Python negative-index normalisation. -/
def seqGet (xs : List Value) (i : Int) : Except Err Value :=
  let n : Int := xs.length
  let j := if i < 0 then i + n else i
  if 0 ≤ j ∧ j < n then .ok (xs.getD j.toNat .vnone) else .error .indexErr

/-- Python `h[arg]` for the modelled container classes. -/
def pyGetItem (h arg : Value) : Except Err Value :=
  match h with
  | .rlist _ xs =>
      match toIndex arg with
      | some i => seqGet xs i
      | none => .error (.typeErr "sequence index must be an integer")
  | .vec _ xs =>
      match toIndex arg with
      | some i => seqGet xs i
      | none => .error (.typeErr "list indices must be integers")
  | .tup xs =>
      match toIndex arg with
      | some i => seqGet xs i
      | none => .error (.typeErr "tuple indices must be integers")
  | .str s =>
      match toIndex arg with
      | some i => seqGet (s.toList.map (fun c => Value.str (String.singleton c))) i
      | none => .error (.typeErr "string indices must be integers")
  | .dict entries =>
      if hashableV arg then
        match entries.find? (fun kv => pyEq kv.1 arg) with
        | some kv => .ok kv.2
        | none => .error .keyErr
      else .error (.typeErr "unhashable type")
  | _ => .error (.typeErr "object is not subscriptable")

/-- Lookup in one dict frame (hash lookup modelled by `==` search). -/
def frameGet (f : Frame) (k : Value) : Option Value :=
  (f.find? (fun kv => pyEq kv.1 k)).map (·.2)

/-- `ChainMap` lookup: innermost frame first. -/
def chainGet : ScopeC → Value → Option Value
  | [], _ => none
  | f :: r, k =>
      match frameGet f k with
      | some v => some v
      | none => chainGet r k

/-- `scope[k]` (`ChainMap.__getitem__`): `TypeError` on an unhashable key,
`KeyError` on a miss. -/
def chainGetEx (sc : ScopeC) (k : Value) : Except Err Value :=
  if hashableV k then
    match chainGet sc k with
    | some v => .ok v
    | none => .error .keyErr
  else .error (.typeErr "unhashable type")

/-- `dict.__setitem__`: replace the value of an existing equal key (the
stored key object and its position are kept), else append. -/
def frameSet (f : Frame) (k v : Value) : Frame :=
  match f with
  | [] => [(k, v)]
  | (k0, v0) :: r => if pyEq k0 k then (k0, v) :: r else (k0, v0) :: frameSet r k v

/-- `ChainMap.__setitem__`: always writes into the first frame. -/
def scopeSet (sc : ScopeC) (k v : Value) : ScopeC :=
  match sc with
  | [] => [[(k, v)]]
  | f :: r => frameSet f k v :: r

/-- `scope[k] = v` with the hashability check `dict` performs. -/
def scopeSetE (sc : ScopeC) (k v : Value) : Except Err ScopeC :=
  if hashableV k then .ok (scopeSet sc k v) else .error (.typeErr "unhashable type")

/-- The `.str` attribute read by `nested_scope` (`Symbol`, `Keyword` and
`RString` carry one); `none` models the `AttributeError` on other
values. -/
def paramStr : Value → Option String
  | .sym s => some s
  | .kw s => some s
  | .str s => some s
  | _ => none

/-- Does the parameter name start with a single star marker. -/
def strStarts1 (s : String) : Bool :=
  match s.toList with
  | c :: _ => c = '*'
  | [] => false

/-- Does the parameter name start with a double star marker. -/
def strStarts2 (s : String) : Bool :=
  match s.toList with
  | c :: d :: _ => c = '*' && d = '*'
  | _ => false

/-- `str.lstrip` of leading stars, as `arg.str.lstrip` does in
`nested_scope`. -/
def dropStars (s : String) : String :=
  ⟨s.toList.dropWhile (· = '*')⟩

/-- Build the dict comprehension of `zip(args, vals)` used by
`nested_scope` (zip stops at the shorter sequence; duplicate parameter
names overwrite). -/
def zipFrameGo : Frame → List Value → List Value → Except Err Frame
  | acc, [], _ => .ok acc
  | acc, _, [] => .ok acc
  | acc, p :: ps, v :: vs =>
      if hashableV p then zipFrameGo (frameSet acc p v) ps vs
      else .error (.typeErr "unhashable type")

/-- `bases.nested_scope(current_scope, args, vals)`: bind a parameter
specification to call-time argument values and push the new frame.
`vals` is the positional argument tuple/list of every modelled call site
(`RiplFunc.__call__`, the evaluator's application branch); the dict-valued
`vals` accepted by the double-star branch therefore never occurs and that
branch raises its `SyntaxError` as the source does for non-dict `vals`. -/
def nestedScope (sc : ScopeC) (argsSpec : Value) (vals : List Value) : Except Err ScopeC := do
  let n ← pyLen argsSpec
  if n = 1 then
    let arg ← pyGetItem argsSpec (.vint 0)
    match paramStr arg with
    | none => .error .attrErr
    | some s =>
      if strStarts2 s then
        .error (.synErr "**kwargs must be a dict")
      else if strStarts1 s then
        match vals with
        | [] => .error .indexErr
        | [v] => .ok ([(Value.sym (dropStars s), v)] :: sc)
        | v1 :: v2 :: rest => .ok ([(Value.sym (dropStars s), Value.tup (v1 :: v2 :: rest))] :: sc)
      else
        if vals.length != 1 then
          .error (.synErr ("expected 1 positional argument, got " ++ toString vals.length))
        else
          match vals with
          | [v] =>
              if hashableV arg then .ok ([(arg, v)] :: sc)
              else .error (.typeErr "unhashable type")
          | _ => .error .valueErr
  else
    if n > vals.length then .error (.synErr "missing positional arguments")
    else if n < vals.length then .error (.synErr "too many positional arguments")
    else
      match iterElems argsSpec with
      | none => .error (.typeErr "not iterable")
      | some params => do
          let fr ← zipFrameGo [] params vals
          .ok (fr :: sc)

/-- `RList._cons(self, other)` from `bases.py`: `self.extendleft(iter(other))`
when `other` is iterable (prepending its elements in reverse), else
`self.extendleft([other])`; both mutate the receiver in place and return
it.  The result pairs the receiver's new (class, contents) with the flag
`True` recording that the returned list is the mutated receiver itself. -/
def consRList (cls : RCls) (xs : List Value) (other : Value) :
    (RCls × List Value) × Bool :=
  match iterElems other with
  | some es => ((cls, es.reverse ++ xs), true)
  | none => ((cls, other :: xs), true)

/-- `RVector._cons(self, other)`: `RVector([other]) + self`, a fresh plain
`list` (`list.__add__` returns the base class); the receiver is not
touched, recorded by the flag `False`. -/
def consRVector (xs : List Value) (other : Value) : Value × Bool :=
  (.vec false (other :: xs), false)

/-! ## The lexer (`backend.py`)

`Reader.lex` scans the input with one master regular expression built from
`RIPL_TAGS`, taking at each position the first tag (in table order) whose
pattern matches there.  Each pattern below is translated into an explicit
matcher on the remaining character list; greedy/backtracking behaviour is
resolved per pattern (the dot never matches a newline, so the patterns
that end in a closing paren match up to the last closing paren on the
current line). -/

/-- Python `str.isspace` characters relevant to the `\s` class. -/
def isPySpace (c : Char) : Bool :=
  c = ' ' || c = '\t' || c = '\n' || c = '\r' || c = '\x0b' || c = '\x0c'

/-- A decimal digit. -/
def isDigitC (c : Char) : Bool := '0' ≤ c && c ≤ '9'

/-- The character class of `SYMBOL`/`KEYWORD` bodies: anything that is not
whitespace, a bracket, a hash, a comma or a dot. -/
def symCh (c : Char) : Bool :=
  !isPySpace c && !(c = '(' || c = ')' || c = '[' || c = ']' ||
    c = Char.ofNat 123 || c = Char.ofNat 125 || c = '#' || c = ',' || c = '.')

/-- The current line: characters up to (not including) the next newline,
the span the regex dot can cover. -/
def lineOf (s : List Char) : List Char := s.takeWhile (· ≠ '\n')

/-- Index of the last occurrence of `c` in `l`, if any. -/
def lastIdxOf (c : Char) : List Char → Option Nat
  | [] => none
  | x :: xs =>
      match lastIdxOf c xs with
      | some i => some (i + 1)
      | none => if x = c then some 0 else none

/-- Length of the run of decimal digits at the head. -/
def digitsRun (s : List Char) : Nat := (s.takeWhile isDigitC).length

/-- Consume an optional leading minus sign. -/
def dropMinus (s : List Char) : Bool × List Char :=
  match s with
  | '-' :: r => (true, r)
  | _ => (false, s)

/-- Match a number tail of shape optional-dot-then-digits, returning the
consumed length and the rest.  (Models the regex fragment after a digit
run.) -/
def dotDigits (s : List Char) : Nat × List Char :=
  match s with
  | '.' :: r =>
      let d := digitsRun r
      (1 + d, r.drop d)
  | _ => (0, s)

/-- Matcher for the `COMPLEX` pattern: optionally signed number, a plus or
minus, a second number, and a trailing `j`. -/
def mComplex (s : List Char) : Option Nat :=
  let (neg, s1) := dropMinus s
  let d1 := digitsRun s1
  if d1 = 0 then none else
  let (k2, s3) := dotDigits (s1.drop d1)
  match s3 with
  | c :: r4 =>
      if c = '+' || c = '-' then
        let d2 := digitsRun r4
        if d2 = 0 then none else
        let (k3, r6) := dotDigits (r4.drop d2)
        match r6 with
        | 'j' :: _ => some ((if neg then 1 else 0) + d1 + k2 + 1 + d2 + k3 + 1)
        | _ => none
      else none
  | [] => none

/-- Matcher for the `COMPLEX_PURE` pattern: optionally signed number with
a trailing `j`. -/
def mComplexPure (s : List Char) : Option Nat :=
  let (neg, s1) := dropMinus s
  let d1 := digitsRun s1
  if d1 = 0 then none else
  let (k2, s3) := dotDigits (s1.drop d1)
  match s3 with
  | 'j' :: _ => some ((if neg then 1 else 0) + d1 + k2 + 1)
  | _ => none

/-- Matcher for the `FLOAT` pattern: signed digits, a dot, digits. -/
def mFloat (s : List Char) : Option Nat :=
  let (neg, s1) := dropMinus s
  let d1 := digitsRun s1
  if d1 = 0 then none else
  match s1.drop d1 with
  | '.' :: r =>
      let d2 := digitsRun r
      if d2 = 0 then none else some ((if neg then 1 else 0) + d1 + 1 + d2)
  | _ => none

/-- Matcher for a based integer pattern such as `-?0b[0-1]+`: the base
marker letter and the allowed digit class are parameters.  (The octal
class in the source is `[0-8]`, erroneously admitting `8`.) -/
def mIntBased (marker : Char) (dig : Char → Bool) (s : List Char) : Option Nat :=
  let (neg, s1) := dropMinus s
  match s1 with
  | '0' :: m :: r =>
      if m = marker then
        let d := (r.takeWhile dig).length
        if d = 0 then none else some ((if neg then 1 else 0) + 2 + d)
      else none
  | _ => none

/-- Matcher for the plain `INT` pattern `-?\d+`. -/
def mInt (s : List Char) : Option Nat :=
  let (neg, s1) := dropMinus s
  let d := digitsRun s1
  if d = 0 then none else some ((if neg then 1 else 0) + d)

/-- Matcher for the `NULL` pattern: a literal `()`, or optional whitespace
followed by the word `None`. -/
def mNull (s : List Char) : Option Nat :=
  match s with
  | '(' :: ')' :: _ => some 2
  | _ =>
      let k := (s.takeWhile isPySpace).length
      match s.drop k with
      | 'N' :: 'o' :: 'n' :: 'e' :: _ => some (k + 4)
      | _ => none

/-- Matcher for the sugar patterns of shape `c` + parenthesised body
(`QUOTED_SEXP`, `QUASI_QUOTED`, `CURRIED_SEXP`): the marker character, an
open paren, at least one character, then greedily up to the last closing
paren on the line. -/
def mMarkedSexp (marker : Char) (s : List Char) : Option Nat :=
  match s with
  | c0 :: '(' :: _ =>
      if c0 = marker then
        match lastIdxOf ')' (lineOf s) with
        | some i => if 3 ≤ i then some (i + 1) else none
        | none => none
      else none
  | _ => none

/-- Matcher for `COMMENT_SEXP`: a semicolon-hash-paren prefix, then
greedily up to the last closing paren on the line. -/
def mCommentSexp (s : List Char) : Option Nat :=
  match s with
  | ';' :: '#' :: '(' :: _ =>
      match lastIdxOf ')' (lineOf s) with
      | some i => if 3 ≤ i then some (i + 1) else none
      | none => none
  | _ => none

/-- Matcher for `COMMENT`: a semicolon to the end of the line, consuming
the newline when present. -/
def mComment (s : List Char) : Option Nat :=
  match s with
  | ';' :: _ =>
      let l := (lineOf s).length
      some (if l < s.length then l + 1 else l)
  | _ => none

/-- Matcher for `QUOTED_ATOM`: a quote mark then greedily the rest of the
line (the trailing lookahead group in the source pattern is optional and
therefore never constrains the match). -/
def mQuotedAtom (s : List Char) : Option Nat :=
  match s with
  | '\'' :: _ =>
      let l := (lineOf s).length
      if 2 ≤ l then some l else none
  | _ => none

/-- Matcher for `DOCSTRING`: three double quotes, a run of non-quote
characters (newlines included), three double quotes; returns total length
and the inner content (the captured group the lexer extracts). -/
def mDocstring (s : List Char) : Option (Nat × List Char) :=
  match s with
  | '"' :: '"' :: '"' :: r =>
      let content := r.takeWhile (· ≠ '"')
      match r.drop content.length with
      | '"' :: '"' :: '"' :: _ => some (6 + content.length, content)
      | _ => none
  | _ => none

/-- Matcher for `STRING`: a double-quoted run of non-quote characters;
returns total length and the inner content. -/
def mString (s : List Char) : Option (Nat × List Char) :=
  match s with
  | '"' :: r =>
      let content := r.takeWhile (· ≠ '"')
      match r.drop content.length with
      | '"' :: _ => some (2 + content.length, content)
      | _ => none
  | _ => none

/-- Matcher for `KEYWORD`: a colon then a nonempty run of symbol
characters (the optional lookahead never constrains). -/
def mKeyword (s : List Char) : Option Nat :=
  match s with
  | ':' :: r =>
      let k := (r.takeWhile symCh).length
      if k = 0 then none else some (1 + k)
  | _ => none

/-- Matcher for `SYMBOL`: a nonempty run of symbol characters. -/
def mSymbol (s : List Char) : Option Nat :=
  let k := (s.takeWhile symCh).length
  if k = 0 then none else some k

/-- The lexer tags of `RIPL_TAGS`, in table order. -/
inductive LTag where
  | commentSexp | comment | quotedSexp | quotedAtom | quasiQuoted | curriedSexp
  | nullT | parenOpen | parenClose | bracketOpen | bracketClose
  | braceOpen | braceClose
  | complexT | complexPure | floatT | intBin | intOct | intHex | intT
  | commaT | dotT | newlineT | whitespaceT
  | docstringT | stringT | keywordT | symbolT | synErrT
deriving DecidableEq, Repr

/-- One match of the master regular expression at the head of `s`: the
first tag in `RIPL_TAGS` order whose pattern matches, the length of the
match, and the extracted source text (the inner capture group for string
and docstring tokens, the whole match otherwise).  `none` only on empty
input: the final catch-all dot matches any character except a newline, and
newlines are taken by `NEWLINE` first. -/
def firstMatch (s : List Char) : Option (LTag × Nat × List Char) :=
  match mCommentSexp s with
  | some n => some (.commentSexp, n, s.take n)
  | none =>
  match mComment s with
  | some n => some (.comment, n, s.take n)
  | none =>
  match mMarkedSexp '\'' s with
  | some n => some (.quotedSexp, n, s.take n)
  | none =>
  match mQuotedAtom s with
  | some n => some (.quotedAtom, n, s.take n)
  | none =>
  match mMarkedSexp (Char.ofNat 96) s with
  | some n => some (.quasiQuoted, n, s.take n)
  | none =>
  match mMarkedSexp '~' s with
  | some n => some (.curriedSexp, n, s.take n)
  | none =>
  match mNull s with
  | some n => some (.nullT, n, s.take n)
  | none =>
  match s with
  | '(' :: _ => some (.parenOpen, 1, ['('])
  | ')' :: _ => some (.parenClose, 1, [')'])
  | '[' :: _ => some (.bracketOpen, 1, ['['])
  | ']' :: _ => some (.bracketClose, 1, [']'])
  | c :: _rest =>
      if c = Char.ofNat 123 then some (.braceOpen, 1, [c])
      else if c = Char.ofNat 125 then some (.braceClose, 1, [c])
      else
      match mComplex s with
      | some n => some (.complexT, n, s.take n)
      | none =>
      match mComplexPure s with
      | some n => some (.complexPure, n, s.take n)
      | none =>
      match mFloat s with
      | some n => some (.floatT, n, s.take n)
      | none =>
      match mIntBased 'b' (fun d => d = '0' || d = '1') s with
      | some n => some (.intBin, n, s.take n)
      | none =>
      match mIntBased 'o' (fun d => '0' ≤ d && d ≤ '8') s with
      | some n => some (.intOct, n, s.take n)
      | none =>
      match mIntBased 'x' (fun d => isDigitC d || ('a' ≤ d && d ≤ 'f') || ('A' ≤ d && d ≤ 'F')) s with
      | some n => some (.intHex, n, s.take n)
      | none =>
      match mInt s with
      | some n => some (.intT, n, s.take n)
      | none =>
      if c = ',' then some (.commaT, 1, [','])
      else if c = '.' then some (.dotT, 1, ['.'])
      else if c = '\n' then some (.newlineT, 1, ['\n'])
      else if isPySpace c then
        some (.whitespaceT, (s.takeWhile isPySpace).length, s.takeWhile isPySpace)
      else
      match mDocstring s with
      | some (n, content) => some (.docstringT, n, content)
      | none =>
      match mString s with
      | some (n, content) => some (.stringT, n, content)
      | none =>
      match mKeyword s with
      | some n => some (.keywordT, n, s.take n)
      | none =>
      match mSymbol s with
      | some n => some (.symbolT, n, s.take n)
      | none => some (.synErrT, 1, [c])
  | [] => none

/-- A lexer token: tag, converted value, and the line/column position the
lexer records. -/
structure Tok where
  tag : LTag
  val : Value
  line : Nat
  col : Nat
deriving Repr

/-- Python `str.strip`: drop leading and trailing whitespace. -/
def pyStrip (s : List Char) : List Char :=
  ((s.dropWhile isPySpace).reverse.dropWhile isPySpace).reverse

/-- Integer digit value for the bases the lexer accepts (decimal digits
and both cases of the hex letters, by code point). -/
def digitVal (c : Char) : Option Nat :=
  let n := c.toNat
  if 48 ≤ n && n ≤ 57 then some (n - 48)
  else if 97 ≤ n && n ≤ 102 then some (n - 87)
  else if 65 ≤ n && n ≤ 70 then some (n - 55)
  else none

/-- Accumulate digits of `int(text, base)`; `ValueError` on a digit not
below the base (the octal tag's `[0-8]` class can supply one). -/
def intDigits (base : Nat) : List Char → Nat → Except Err Nat
  | [], acc => .ok acc
  | c :: r, acc =>
      match digitVal c with
      | some d => if d < base then intDigits base r (acc * base + d) else .error .valueErr
      | none => .error .valueErr

/-- Python `int(text, base)` for the texts the numeric tags match:
optional sign, optional matching base prefix, then digits. -/
def pyIntParse (txt : List Char) (base : Nat) : Except Err Int := do
  let (neg, s1) := dropMinus txt
  let body :=
    match s1 with
    | '0' :: m :: r =>
        if (base = 2 && m = 'b') || (base = 8 && m = 'o') || (base = 16 && m = 'x') then r
        else s1
    | _ => s1
  if body.isEmpty then .error .valueErr
  else do
    let n ← intDigits base body 0
    .ok (if neg then -(n : Int) else (n : Int))

/-- The integer base assigned to each integer tag by `lex`. -/
def intBase : LTag → Nat
  | .intBin => 2
  | .intOct => 8
  | .intHex => 16
  | _ => 10

mutual

/-- `Reader.lex(string)`: strip the input, reject an input that starts
with an open paren but does not end with a close paren, then scan.
Fuelled because the quote/quasiquote/curry sugar re-lexes a rewritten
substring. -/
def lexTop (fuel : Nat) (input : List Char) : Except Err (List Tok) :=
  match fuel with
  | 0 => .error .outOfFuel
  | fuel + 1 =>
      let s := pyStrip input
      match s with
      | '(' :: _ =>
          if s.getLast? = some ')' then lexLoop fuel s 0 1 0
          else .error (.synErr "Unclosed s-expression in input")
      | _ => lexLoop fuel s 0 1 0
termination_by structural fuel

/-- The scanning loop of `Reader.lex` over `re.finditer` matches: `pos` is
the absolute position of the current suffix `s`, `lineNum`/`lineStart`
the line bookkeeping. -/
def lexLoop (fuel : Nat) (s : List Char) (pos lineNum lineStart : Nat) :
    Except Err (List Tok) :=
  match fuel with
  | 0 => .error .outOfFuel
  | fuel + 1 =>
      match firstMatch s with
      | none => .ok []
      | some (tag, n, txt) =>
          let rest := s.drop n
          match tag with
          | .synErrT => .error (.synErr ("Unable to parse: " ++ String.mk txt))
          | .newlineT => lexLoop fuel rest (pos + n) (lineNum + 1) (pos + n)
          | .comment => lexLoop fuel rest (pos + n) lineNum lineStart
          | .commentSexp => lexLoop fuel rest (pos + n) lineNum lineStart
          | .whitespaceT => lexLoop fuel rest (pos + n) lineNum lineStart
          | .quotedSexp => lexSugar fuel "(quote " txt rest (pos + n) lineNum lineStart
          | .quotedAtom => lexSugar fuel "(quote " txt rest (pos + n) lineNum lineStart
          | .quasiQuoted => lexSugar fuel "(quasiquote " txt rest (pos + n) lineNum lineStart
          | .curriedSexp => lexSugar fuel "(curry " txt rest (pos + n) lineNum lineStart
          | _ => do
              let val ←
                match tag with
                | .nullT => pure emptyRL
                | .intT | .intBin | .intOct | .intHex =>
                    (pyIntParse txt (intBase tag)).map Value.vint
                | .floatT => pure (Value.vfloat (String.mk txt))
                | .complexT | .complexPure => pure (Value.vcpx (String.mk txt))
                | _ => pure (Value.str (String.mk txt))
              let tag' := if tag = .complexPure then LTag.complexT else tag
              let toks ← lexLoop fuel rest (pos + n) lineNum lineStart
              .ok (⟨tag', val, lineNum, pos - lineStart⟩ :: toks)
termination_by structural fuel

/-- The sugar branches of `lex`: rebuild the canonical form (head text,
then the matched text minus its marker character, then a close paren) and
re-lex it with a fresh `lex` call, splicing the resulting tokens in. -/
def lexSugar (fuel : Nat) (head : String) (txt rest : List Char)
    (pos lineNum lineStart : Nat) : Except Err (List Tok) :=
  match fuel with
  | 0 => .error .outOfFuel
  | fuel + 1 => do
      let sub := head.toList ++ txt.drop 1 ++ [')']
      let subToks ← lexTop fuel sub
      let toks ← lexLoop fuel rest pos lineNum lineStart
      .ok (subToks ++ toks)
termination_by structural fuel

end

/-! ## The parser (`backend.py`, `Reader.parse` and helpers)

Token streams are modelled as lists consumed in order (the generator
semantics).  The guard `if not tokens` at the head of `parse` is modelled
as emptiness of the concrete remaining sequence: that is exactly its
behaviour on the sequence inputs the code passes it (`tokens=None` in the
tests, and the concrete `tmp` lists `_parse_vector`/`_parse_dict` hand
back to `parse`).  A bare `next()` on an exhausted stream is the distinct
`.stopIter` outcome (PEP 479 turns it into `RuntimeError` on newer
Pythons; on the code's 3.5-era target it silently terminates the
enclosing generator — either way it is not a `SyntaxError`).  Two such
bare `next()` calls sit *outside* any handler: the one in the open-paren
branch of `parse`, and the very first `token = next(tokens)` of
`_parse_vector`/`_parse_dict` (which precedes their
`try/except StopIteration`), so end-of-input immediately after `[` or a
brace escapes as `StopIteration` while end-of-input later in the literal
is converted to the missing-close `SyntaxError`.  The collected literal
body `tmp` is a plain Python list; re-parsing it with `self.parse(tmp)`
works for atoms and stray closers, but any open-delimiter token inside it
reaches a `next(tokens)` on that plain list, a `TypeError` ("'list'
object is not an iterator"). -/

/-- `str(token.val)` as interpolated into parse error messages. -/
def tokValStr : Value → String
  | .str s => s
  | .sym s => s
  | .vint n => toString n
  | _ => ""

/-- `make_atom(token)` from `backend.py`: symbols and keywords are wrapped,
every other token keeps its value. -/
def makeAtom (t : Tok) : Value :=
  match t.tag, t.val with
  | .symbolT, .str s => .sym s
  | .keywordT, .str s => .kw s
  | _, v => v

/-- Collect the tokens of a vector literal up to the closing bracket:
`none` when the stream ends first (the `StopIteration` the source converts
into a missing-bracket `SyntaxError`). -/
def collectVec : List Tok → List Tok → Option (List Tok × List Tok)
  | [], _ => none
  | t :: rest, acc =>
      if t.tag = .bracketClose then some (acc.reverse, rest)
      else collectVec rest (t :: acc)

/-- Collect the tokens of a dict literal up to the closing brace, dropping
comma tokens; `none` when the stream ends first. -/
def collectDict : List Tok → List Tok → Option (List Tok × List Tok)
  | [], _ => none
  | t :: rest, acc =>
      if t.tag = .braceClose then some (acc.reverse, rest)
      else if t.tag = .commaT then collectDict rest acc
      else collectDict rest (t :: acc)

/-- Split a flat parsed list into the successive key/value pairs the dict
literal builder zips up (the caller has already checked evenness). -/
def pairUp : List Value → List (Value × Value)
  | k :: v :: rest => (k, v) :: pairUp rest
  | _ => []

/-- Build the `RDict` from sequential pairs; an unhashable key raises the
`TypeError` Python's dict construction would. -/
def buildDict : List (Value × Value) → Frame → Except Err Frame
  | [], acc => .ok acc
  | (k, v) :: rest, acc =>
      if hashableV k then buildDict rest (frameSet acc k v)
      else .error (.typeErr "unhashable type")

/-- The body of `parse` iterating over a concrete (plain-list) `tmp` from
`_parse_vector`/`_parse_dict`: the `for` loop yields atoms and raises the
positioned `SyntaxError` for stray closers, but every open-delimiter
branch immediately calls `next(tokens)` on the plain list, raising
`TypeError` ("'list' object is not an iterator"). -/
def parseListGo : List Tok → Except Err (List Value)
  | [] => .ok []
  | t :: rest =>
      match t.tag with
      | .parenOpen => .error (.typeErr "list object is not an iterator")
      | .bracketOpen => .error (.typeErr "list object is not an iterator")
      | .braceOpen => .error (.typeErr "list object is not an iterator")
      | .parenClose | .bracketClose | .braceClose =>
          .error (.synErr ("unexpected " ++ tokValStr t.val ++ " in input (line "
            ++ toString t.line ++ " col " ++ toString t.col ++ ")"))
      | _ => do
          let vs ← parseListGo rest
          .ok (makeAtom t :: vs)

/-- `[v for v in self.parse(tmp)]`: a full parse of the concrete token
list collected for a vector/dict literal body.  `parse` of an empty list
raises the unexpected-EOF `SyntaxError` (so the empty literals `[]` and
the brace pair parse to that error in the source as well). -/
def parseAll (toks : List Tok) : Except Err (List Value) :=
  match toks with
  | [] => .error (.synErr "unexpected EOF while reading input")
  | _ => parseListGo toks

mutual

/-- `next(Reader.parse(tokens))`: parse one top-level value off the token
stream and return it with the remaining stream.  An empty stream raises
the unexpected-EOF `SyntaxError` (the `if not tokens` guard); a stray
closing delimiter raises a positioned `SyntaxError`; in the vector/dict
branches the *first* `next(tokens)` of `_parse_vector`/`_parse_dict`
precedes their `try/except StopIteration`, so end-of-input immediately
after the opener escapes as `StopIteration`, while running out later in
the literal is converted to the missing-close `SyntaxError`; everything
else dispatches exactly as the source's `for` loop does. -/
def parseOne (fuel : Nat) (toks : List Tok) : Except Err (Value × List Tok) :=
  match fuel with
  | 0 => .error .outOfFuel
  | fuel + 1 =>
      match toks with
      | [] => .error (.synErr "unexpected EOF while reading input")
      | t :: rest =>
          match t.tag with
          | .parenOpen =>
              match rest with
              | [] => .error .stopIter
              | t2 :: rest2 =>
                  if t2.tag = .parenClose then .ok (.vec false [], rest2)
                  else sexpLoop fuel (t2 :: rest2) []
          | .bracketOpen =>
              match rest with
              | [] => .error .stopIter
              | _ =>
                  match collectVec rest [] with
                  | none => .error (.synErr "missing closing ] in list literal.")
                  | some (tmp, remaining) => do
                      let vs ← parseAll tmp
                      .ok (.vec true vs, remaining)
          | .braceOpen =>
              match rest with
              | [] => .error .stopIter
              | _ =>
                  match collectDict rest [] with
                  | none => .error (.synErr ("missing closing " ++ "\x7d" ++ " in dict literal."))
                  | some (tmp, remaining) => do
                      let vs ← parseAll tmp
                      if vs.length % 2 ≠ 0 then .error (.synErr "Invalid dict literal")
                      else do
                        let d ← buildDict (pairUp vs) []
                        .ok (.dict d, remaining)
          | .parenClose | .bracketClose | .braceClose =>
              .error (.synErr ("unexpected " ++ tokValStr t.val ++ " in input (line "
                ++ toString t.line ++ " col " ++ toString t.col ++ ")"))
          | _ => .ok (makeAtom t, rest)

/-- The inner while-loop of the open-paren branch: parse one element,
then look at the next token; a close paren finishes the s-expression, an
exhausted stream is `StopIteration` (not a `SyntaxError`). -/
def sexpLoop (fuel : Nat) (toks : List Tok) (acc : List Value) :
    Except Err (Value × List Tok) :=
  match fuel with
  | 0 => .error .outOfFuel
  | fuel + 1 => do
      let (v, rest) ← parseOne fuel toks
      match rest with
      | [] => .error .stopIter
      | t :: rest2 =>
          if t.tag = .parenClose then .ok (.rlist .plain (acc ++ [v]), rest2)
          else sexpLoop fuel (t :: rest2) (acc ++ [v])

end

/-! ## The evaluator (`evaluators.py`, `Evaluator.eval`) -/

/-- The modelled subset of builtin procedure behaviour.  The evaluator's
claims only ever reach a builtin through lookups that miss, so the single
substantive row is integer addition for the variadic plus; every other
application is marked `.unmodeledBuiltin` (never produced by a claim
theorem). -/
def foldAddInt (acc : Int) : List Value → Except Err Value
  | [] => .ok (.vint acc)
  | .vint n :: rest => foldAddInt (acc + n) rest
  | _ => .error (.unmodeledBuiltin "+")

/-- Apply a named builtin from `get_global_scope` to evaluated
arguments. -/
def applyBuiltin (name : String) (args : List Value) : Except Err Value :=
  match name, args with
  | "+", .vint a :: rest => foldAddInt a rest
  | "==", [a, b] => .ok (.vbool (pyEq a b))
  | "!=", [a, b] => .ok (.vbool (!pyEq a b))
  | "not", [a] => .ok (.vbool (!truthy a))
  | n, _ => .error (.unmodeledBuiltin n)

/-- `proc(*args)` for a non-`RiplFunc` procedure value: named builtins
dispatch to `applyBuiltin`, an `RVector` is callable as indexing
(`RVector.__call__`), and every other modelled value raises the
`TypeError` Python raises for a non-callable. -/
def pyCall (proc : Value) (args : List Value) : Except Err Value :=
  match proc with
  | .builtin name => applyBuiltin name args
  | .vec true xs =>
      match args with
      | [i] => pyGetItem (.vec true xs) i
      | _ => .error (.typeErr "call takes exactly one positional argument")
  | _ => .error (.typeErr "object is not callable")

/-- The names bound by `get_global_scope`'s four explicit tables
(`std_ops`, `key_words`, `type_cons`, `bool_tests`).  The host
`__builtins__` merge and the REPL's prelude merge are omitted: they bind
only `Symbol` keys as well, so lookups of non-symbol values miss exactly
as in the source, and no claim looks a host builtin up. -/
def globalNames : List String :=
  ["+", "-", "*", "/", "%", ">", "<", ">=", "<=", "==", "!=",
   "append", "apply", "begin", "car", "cdr", "cons", ":", "not", "len",
   "str", "int", "float", "dict", "list", "vector", "tuple", ",",
   "eq?", "equal?", "callable?", "null?", "string?", "symbol?", "dict?",
   "tuple?", "list?", "int?", "float?", "number?"]

/-- The evaluator's global scope: one frame of symbol-to-builtin
bindings. -/
def globalScope : ScopeC :=
  [globalNames.map (fun n => (Value.sym n, Value.builtin n))]

/-- The local variables of one `Evaluator.eval` invocation that the `if`
branch reads before assigning when the arity is wrong: `test`, `_true`,
`_false`.  They persist across iterations of the evaluator's `while True`
loop (set by an earlier well-formed `if` in the same invocation) and are
unset (`none`) at the start of every fresh `eval` call. -/
abbrev IfLoc := Option (Value × Value × Value)

/-- The index-syntax step of the evaluator's Container-head branch (lines
127-138): a quoted-list head is rejected, an empty list head hits the
`IndexError` of `tkns[0][0]`, otherwise the head is indexed by the raw
(unevaluated) argument. -/
def indexStep (h arg : Value) : Except Err Value :=
  match h with
  | .rlist _ [] => .error .indexErr
  | .rlist _ (e :: _) =>
      if pyEq e (.sym "quote") then .error (.synErr "Cannot index into quoted list")
      else pyGetItem h arg
  | _ => pyGetItem h arg

mutual

/-- `Evaluator.eval(tkns, scope)` from `evaluators.py`, lines 117-263,
as one step-faithful function.  Returns the value together with the
updated state of the scope chain that was passed in (all writes go to the
chain's first frame).  `loc` carries the `if` branch's local variables
across loop iterations (see `IfLoc`). -/
def evalV (fuel : Nat) (tkns : Value) (scope : ScopeC) (loc : IfLoc) :
    Except Err (Value × ScopeC) :=
  match fuel with
  | 0 => .error .outOfFuel
  | fuel + 1 =>
      match tkns with
      | .rlist cls xs =>
          -- `if tkns == EmptyList(): return EmptyList()` — true exactly when
          -- the operand the comparison consults is empty (for an
          -- EmptyList-class receiver its own contents are not consulted).
          if pyEq (.rlist cls xs) emptyRL then .ok (emptyRL, scope)
          else
            match xs with
            | [] => .ok (emptyRL, scope)
            | h :: rest =>
                if isContainer h then
                  -- index syntax: (<CONTAINER> KEY/INDEX) -> VALUE
                  match rest with
                  | [arg] => (indexStep h arg).map (fun v => (v, scope))
                  | _ => .error (.synErr "Invalid function call")
                else
                  if pyEq h (.sym "quote") then
                    match rest with
                    | a :: _ => .ok (a, scope)
                    | [] => .error .indexErr
                  else if pyEq h (.sym "quasiquote") then
                    match rest with
                    | [] => .error .indexErr
                    | exp :: _ =>
                        match pyLen exp with
                        | .error e => .error e
                        | .ok n =>
                            if n = 1 then .ok (exp, scope)
                            else
                              match iterElems exp with
                              | none => .error (.typeErr "not iterable")
                              | some es =>
                                  match qqSplice fuel es scope [] with
                                  | .error e => .error e
                                  | .ok (rep, s1) => .ok (.rlist .plain rep, s1)
                  else if pyEq h (.sym "define") then
                    match rest with
                    | [name, expression] =>
                        if hashableV name then
                          match chainGet scope name with
                          | some v =>
                              if truthy v then
                                .error (.synErr "use set! to modify a stored symbol")
                              else
                                match evalV fuel expression scope none with
                                | .error e => .error e
                                | .ok (v2, s1) =>
                                    (scopeSetE s1 name v2).map (fun s2 => (.vnone, s2))
                          | none =>
                              match evalV fuel expression scope none with
                              | .error e => .error e
                              | .ok (v2, s1) =>
                                  (scopeSetE s1 name v2).map (fun s2 => (.vnone, s2))
                        else .error (.typeErr "unhashable type")
                    | _ => .error .valueErr
                  else if pyEq h (.sym "defn") then
                    let args2 := if rest.length = 4 then rest.take 1 ++ rest.drop 2 else rest
                    match args2 with
                    | [name, fargs, body] =>
                        (scopeSetE scope name (.closure fargs body scope)).map
                          (fun s1 => (.vnone, s1))
                    | _ => .error .valueErr
                  else if pyEq h (.sym "defmacro") then
                    .error (.synErr "haven't finished macros!")
                  else if pyEq h (.sym "set") then
                    match rest with
                    | [name, expression] =>
                        match evalV fuel expression scope none with
                        | .error e => .error e
                        | .ok (v2, s1) =>
                            (scopeSetE s1 name v2).map (fun s2 => (.vnone, s2))
                    | _ => .error .valueErr
                  else if pyEq h (.sym "if") then
                    match rest with
                    | [test, t, e] =>
                        match evalV fuel test scope none with
                        | .error er => .error er
                        | .ok (v, s1) =>
                            evalV fuel (if truthy v then t else e) s1 (some (test, t, e))
                    | [test, t] =>
                        match evalV fuel test scope none with
                        | .error er => .error er
                        | .ok (v, s1) =>
                            evalV fuel (if truthy v then t else .vnone) s1
                              (some (test, t, .vnone))
                    | _ =>
                        -- wrong arity: neither unpacking ran; the loop reads
                        -- the stale locals, unset on a fresh invocation
                        match loc with
                        | none => .error (.unboundLocal "test")
                        | some (test, t, e) =>
                            match evalV fuel test scope none with
                            | .error er => .error er
                            | .ok (v, s1) =>
                                evalV fuel (if truthy v then t else e) s1 (some (test, t, e))
                  else if pyEq h (.sym "eval") then
                    match rest with
                    | [] => .error .indexErr
                    | tokens0 :: _ =>
                        match tokens0 with
                        | .vec _ vxs =>
                            -- isinstance(tokens, list): only the list classes
                            match vxs with
                            | _ :: second :: _ => evalV fuel second scope none
                            | _ => .error .indexErr
                        | _ =>
                            match chainGetEx scope tokens0 with
                            | .error e => .error e
                            | .ok v =>
                                match evalV fuel v scope none with
                                | .error e => .error e
                                | .ok (v2, s1) => evalV fuel v2 s1 loc
                  else if pyEq h (.sym "lambda") then
                    match rest with
                    | [bindings, body] => .ok (.closure bindings body scope, scope)
                    | _ => .error .valueErr
                  else
                    match evalV fuel h scope none with
                    | .error e => .error e
                    | .ok (proc, s1) =>
                        match evalArgs fuel rest s1 with
                        | .error e => .error e
                        | .ok (argv, s2) =>
                            match proc with
                            | .closure params body cscope =>
                                match nestedScope cscope params argv with
                                | .error e => .error e
                                | .ok ns =>
                                    match evalV fuel body ns loc with
                                    | .error e => .error e
                                    | .ok (v, _) => .ok (v, s2)
                            | _ => (pyCall proc argv).map (fun v => (v, s2))
      | _ =>
          -- atom: `scope[tkns]`, with KeyError falling back to NameError
          -- for symbols and the literal value otherwise
          if hashableV tkns then
            match chainGet scope tkns with
            | some v => .ok (v, scope)
            | none =>
                match tkns with
                | .sym s => .error (.nameErr ("symbol " ++ s ++ " is not defined"))
                | _ => .ok (tkns, scope)
          else .error (.typeErr "unhashable type")

/-- Left-to-right evaluation of application arguments, threading the
scope. -/
def evalArgs (fuel : Nat) (xs : List Value) (scope : ScopeC) :
    Except Err (List Value × ScopeC) :=
  match fuel with
  | 0 => .error .outOfFuel
  | fuel + 1 =>
      match xs with
      | [] => .ok ([], scope)
      | x :: rest =>
          match evalV fuel x scope none with
          | .error e => .error e
          | .ok (v, s1) =>
              match evalArgs fuel rest s1 with
              | .error e => .error e
              | .ok (vs, s2) => .ok (v :: vs, s2)

/-- The quasiquote splice loop (lines 158-179): scan the elements left to
right; a tilde marker evaluates and substitutes the next element, a
tilde-at marker evaluates the next element (falling back to the raw form
on a `TypeError`), requires an `RList`-class result and splices its
elements; everything else is kept as is. -/
def qqSplice (fuel : Nat) (es : List Value) (scope : ScopeC) (acc : List Value) :
    Except Err (List Value × ScopeC) :=
  match fuel with
  | 0 => .error .outOfFuel
  | fuel + 1 =>
      match es with
      | [] => .ok (acc, scope)
      | e :: rest =>
          if pyEq e (.sym "~") then
            match rest with
            | [] => .error .stopIter
            | unquoted :: rest2 =>
                match evalV fuel unquoted scope none with
                | .error er => .error er
                | .ok (v, s1) => qqSplice fuel rest2 s1 (acc ++ [v])
          else if pyEq e (.sym "~@") then
            match rest with
            | [] => .error .stopIter
            | unquoted :: rest2 =>
                let expression : Except Err (Value × ScopeC) :=
                  match evalV fuel unquoted scope none with
                  | .error (.typeErr _) => .ok (unquoted, scope)
                  | .error er => .error er
                  | .ok (v, s1) => .ok (v, s1)
                match expression with
                | .error er => .error er
                | .ok (v, s1) =>
                    match v with
                    | .rlist _ atoms => qqSplice fuel rest2 s1 (acc ++ atoms)
                    | _ => .error (.synErr "Can only use ~@ on an expression")
          else qqSplice fuel rest scope (acc ++ [e])

end

/-- `RiplFunc.__call__(self, *arg_vals)` from `bases.py`: evaluate the
body in a scope frame freshly bound by `nested_scope`. -/
def riplFuncCall (fuel : Nat) (params body : Value) (cscope : ScopeC)
    (argVals : List Value) : Except Err Value :=
  match nestedScope cscope params argVals with
  | .error e => .error e
  | .ok ns => (evalV fuel body ns none).map (·.1)

/-- The REPL pipeline for one expression (`eval_and_print`):
`lex`, a single `next(parse(...))`, then `eval` in the global scope. -/
def runRipl (fuel : Nat) (input : String) : Except Err Value := do
  let toks ← lexTop fuel input.toList
  let (expr, _) ← parseOne fuel toks
  (evalV fuel expr globalScope none).map (·.1)

/-! ## Helper predicates and unfolding lemmas -/

/-- Is the outcome a `SyntaxError`. -/
def isSynErrE {α : Type} : Except Err α → Bool
  | .error (.synErr _) => true
  | _ => false

/-- Is the value an `RList`-class (cons-list) value — the "List" type of
the spec's data model. -/
def isListValue : Value → Bool
  | .rlist _ _ => true
  | _ => false

/-- The tail of the `define` branch shared by its two non-error paths:
evaluate the expression, then bind the name in the current (first)
frame. -/
def defineTail (fuel : Nat) (name expr : Value) (scope : ScopeC) :
    Except Err (Value × ScopeC) :=
  match evalV fuel expr scope none with
  | .error e => .error e
  | .ok (v2, s1) => (scopeSetE s1 name v2).map (fun s2 => (Value.vnone, s2))

/-- Unfolding of the evaluator on a `define` form: the branch checks
`scope.get(name)` over the whole chain and errors only on a truthy hit;
otherwise it evaluates the expression and writes the first frame. -/
theorem evalV_define_step (fuel : Nat) (name expr : Value) (scope : ScopeC)
    (loc : IfLoc) :
    evalV (fuel + 1) (.rlist .plain [.sym "define", name, expr]) scope loc =
      if hashableV name then
        match chainGet scope name with
        | some v =>
            if truthy v then .error (.synErr "use set! to modify a stored symbol")
            else defineTail fuel name expr scope
        | none => defineTail fuel name expr scope
      else .error (.typeErr "unhashable type") := rfl

/-- Unfolding of the evaluator on a compound form whose head is a
Container value: the form is routed to the index-syntax branch before any
special-form or application dispatch, without evaluating the head or the
argument. -/
theorem evalV_container_head (fuel : Nat) (h : Value) (rest : List Value)
    (scope : ScopeC) (loc : IfLoc) (hc : isContainer h = true) :
    evalV (fuel + 1) (.rlist .plain (h :: rest)) scope loc =
      match rest with
      | [arg] => (indexStep h arg).map (fun v => (v, scope))
      | _ => .error (.synErr "Invalid function call") := by
  cases h <;>
    first
      | (rcases rest with _ | ⟨a, _ | ⟨b, t⟩⟩ <;> rfl)
      | simp [isContainer] at hc

/-- A double-star parameter prefix is in particular a single-star
prefix. -/
theorem strStarts2_starts1 (s : String) (h : strStarts2 s = true) :
    strStarts1 s = true := by
  unfold strStarts2 at h
  unfold strStarts1
  rcases hs : s.toList with _ | ⟨c, _ | ⟨d, t⟩⟩ <;> rw [hs] at h <;> simp_all

/-- The vector-literal collector finds no closing bracket in a stream
containing none. -/
theorem collectVec_none (toks : List Tok) (acc : List Tok)
    (h : ∀ u ∈ toks, u.tag ≠ LTag.bracketClose) : collectVec toks acc = none := by
  induction toks generalizing acc with
  | nil => rfl
  | cons t rest ih =>
      unfold collectVec
      rw [if_neg (by simpa using h t (List.mem_cons_self t rest))]
      exact ih _ (fun u hu => h u (List.mem_cons_of_mem _ hu))

/-- The dict-literal collector finds no closing brace in a stream
containing none. -/
theorem collectDict_none (toks : List Tok) (acc : List Tok)
    (h : ∀ u ∈ toks, u.tag ≠ LTag.braceClose) : collectDict toks acc = none := by
  induction toks generalizing acc with
  | nil => rfl
  | cons t rest ih =>
      unfold collectDict
      rw [if_neg (by simpa using h t (List.mem_cons_self t rest))]
      split
      · exact ih _ (fun u hu => h u (List.mem_cons_of_mem _ hu))
      · exact ih _ (fun u hu => h u (List.mem_cons_of_mem _ hu))

/-! ## Claim theorems -/

set_option maxHeartbeats 4000000 in
/-- C1: the claim states that quasiquote processes the escape markers so
that evaluating the backtick form over `(1 2 ~(+ 1 3))` yields `(1 2 4)`
and the form over `(1 2 ~@(1 3))` yields `(1 2 1 3)`.  On the code, the
lexer's `CURRIED_SEXP` sugar rewrites `~(+ 1 3)` into `(curry (+ 1 3))`
before the quasiquote branch ever runs, so the first expression evaluates
to the list `(1 2 (curry (+ 1 3)))`, which is not Python-equal to
`(1 2 4)` — contradicting the repo's own test
`test_quasiquote_unquote_sexp`.  The splice example does yield
`(1 2 1 3)` (via the branch's `TypeError` fallback), and the unquote
marker works as claimed only when written as a separate token
`~ (+ 1 3)`. -/
theorem quasiquote_pipeline :
    runRipl 100 "`(1 2 ~(+ 1 3))" =
      .ok (.rlist .plain [.vint 1, .vint 2,
        .rlist .plain [.sym "curry",
          .rlist .plain [.sym "+", .vint 1, .vint 3]]]) ∧
    pyEq
      (.rlist .plain [.vint 1, .vint 2,
        .rlist .plain [.sym "curry",
          .rlist .plain [.sym "+", .vint 1, .vint 3]]])
      (.rlist .plain [.vint 1, .vint 2, .vint 4]) = false ∧
    runRipl 100 "`(1 2 ~@(1 3))" =
      .ok (.rlist .plain [.vint 1, .vint 2, .vint 1, .vint 3]) ∧
    runRipl 100 "`(1 2 ~ (+ 1 3))" =
      .ok (.rlist .plain [.vint 1, .vint 2, .vint 4]) :=
  ⟨rfl, rfl, rfl, rfl⟩

set_option maxHeartbeats 4000000 in
/-- C2: the claim states that `if` accepts exactly 2 or 3 argument forms
(with the documented truthiness semantics) and that any other arity
raises a syntax error.  The 2- and 3-form semantics hold, but the
evaluator's `if` branch has no arity check: with 4 arguments neither
unpacking runs and the branch reads the local `test` before assignment,
so a fresh evaluation raises `UnboundLocalError`, not a `SyntaxError`
(the repo's unused special-form handler `bases.get_syntax._if` is the one
that raises the claimed `SyntaxError`). -/
theorem if_arity_pipeline :
    runRipl 100 "(if 1 2 3)" = .ok (.vint 2) ∧
    runRipl 100 "(if 0 2 3)" = .ok (.vint 3) ∧
    runRipl 100 "(if 1 2)" = .ok (.vint 2) ∧
    runRipl 100 "(if 0 2)" = .ok .vnone ∧
    runRipl 100 "(if 1 2 3 4)" = .error (.unboundLocal "test") ∧
    isSynErrE (runRipl 100 "(if 1 2 3 4)") = false :=
  ⟨rfl, rfl, rfl, rfl, rfl, rfl⟩

/-- C5 counterexample: the claim states that a non-empty List never
compares equal to the empty-list sentinel; but consing a value onto the
sentinel (`RList._cons`, reached by `(cons 1 ())`) mutates the
`EmptyList`-class receiver into a non-empty list, and `EmptyList.__eq__`
only inspects the *other* operand's emptiness, so that non-empty List
still compares equal to `EmptyList()`. -/
theorem empty_sentinel_counterexample :
    consRList .emptyCls [] (.vint 1) = ((.emptyCls, [.vint 1]), true) ∧
    (([Value.vint 1] : List Value).isEmpty = false) ∧
    pyEq (.rlist .emptyCls [.vint 1]) emptyRL = true :=
  ⟨rfl, rfl, rfl⟩

set_option maxHeartbeats 4000000 in
/-- C5 (amended): `()` evaluates to the `EmptyList()` sentinel; the
sentinel compares equal to itself, to `None`, and to any other empty
List in both directions; a non-empty *plain* `RList` never compares
equal to the sentinel in either direction — but a non-empty
`EmptyList`-class instance (producible by consing onto the sentinel)
still does, since `EmptyList.__eq__` never consults the receiver's own
contents. -/
theorem empty_sentinel_semantics :
    runRipl 100 "()" = .ok emptyRL ∧
    pyEq emptyRL emptyRL = true ∧
    pyEq emptyRL .vnone = true ∧
    pyEq .vnone emptyRL = true ∧
    pyEq emptyRL (.rlist .plain []) = true ∧
    pyEq (.rlist .plain []) emptyRL = true ∧
    (∀ x : Value, ∀ xs : List Value,
      pyEq (.rlist .plain (x :: xs)) emptyRL = false) ∧
    (∀ x : Value, ∀ xs : List Value,
      pyEq emptyRL (.rlist .plain (x :: xs)) = false) ∧
    (∀ x : Value, ∀ xs : List Value,
      pyEq (.rlist .emptyCls (x :: xs)) emptyRL = true) :=
  ⟨rfl, rfl, rfl, rfl, rfl, rfl,
    fun _ _ => rfl, fun _ _ => rfl, fun _ _ => rfl⟩

/-- C9 counterexample: the claim states that consing `x` onto a List `l`
yields a list whose head is `x` followed by the elements of `l` without
modifying `l`.  `RList._cons` instead calls `self.extendleft` — mutating
the receiver in place and returning it (the `true` flag below records
that the result is the mutated receiver) — and when `x` is itself
iterable (here the list `(1 2)`) its elements are spliced in reversed,
so the result's head is `2`, not `x`; the result is not even
Python-equal to the head-insertion the claim describes. -/
theorem cons_claim_counterexample :
    consRList .plain [.vint 1] (.vint 0) = ((.plain, [.vint 0, .vint 1]), true) ∧
    consRList .plain [.vint 3, .vint 4] (.rlist .plain [.vint 1, .vint 2]) =
      ((.plain, [.vint 2, .vint 1, .vint 3, .vint 4]), true) ∧
    pyEq (.rlist .plain [.vint 2, .vint 1, .vint 3, .vint 4])
      (.rlist .plain [.rlist .plain [.vint 1, .vint 2], .vint 3, .vint 4]) = false :=
  ⟨rfl, rfl, rfl⟩

/-- C9 (amended): `RList._cons` mutates the receiver in place and returns
it: a non-iterable `x` is prepended as the head, while an iterable `x`
has its elements prepended in reverse order (spliced, not nested);
`RVector._cons` returns a fresh plain list equal to `[x]` followed by the
vector's elements, leaving the receiver untouched. -/
theorem cons_semantics :
    (∀ cls : RCls, ∀ xs : List Value, ∀ x : Value, iterElems x = none →
        consRList cls xs x = ((cls, x :: xs), true)) ∧
    (∀ cls : RCls, ∀ xs : List Value, ∀ x : Value, ∀ es : List Value,
        iterElems x = some es →
        consRList cls xs x = ((cls, es.reverse ++ xs), true)) ∧
    (∀ xs : List Value, ∀ x : Value,
        consRVector xs x = (.vec false (x :: xs), false)) := by
  refine ⟨?_, ?_, fun _ _ => rfl⟩
  · intro cls xs x hx
    unfold consRList
    rw [hx]
  · intro cls xs x es hx
    unfold consRList
    rw [hx]

/-- C9 witness: the amended cons semantics applied at concrete inputs,
discharging both iterability hypotheses. -/
theorem cons_semantics_witness :
    consRList .plain [.vint 1] (.vint 0) = ((.plain, [.vint 0, .vint 1]), true) ∧
    consRVector [.vint 1] (.vint 0) = (.vec false [.vint 0, .vint 1], false) :=
  ⟨cons_semantics.1 .plain [.vint 1] (.vint 0) rfl,
   cons_semantics.2.2 [.vint 1] (.vint 0)⟩

/-- C3 counterexample: the claim states that redefining a name bound in
the current (local) frame raises an error and leaves the binding
unchanged, and that the error condition is local-boundness.  The branch
instead tests the *truthiness* of `scope.get(name)` over the *whole*
chain: a name locally bound to the falsy `0` is silently overwritten
without error, and a name bound (truthily) only in an outer frame
triggers the error even though it is not bound locally. -/
theorem define_claim_counterexample :
    evalV 50 (.rlist .plain [.sym "define", .sym "x", .vint 1])
        [[(.sym "x", .vint 0)]] none =
      .ok (.vnone, [[(.sym "x", .vint 1)]]) ∧
    evalV 50 (.rlist .plain [.sym "define", .sym "y", .vint 1])
        [[], [(.sym "y", .vint 5)]] none =
      .error (.synErr "use set! to modify a stored symbol") :=
  ⟨rfl, rfl⟩

/-- C3 (amended): `(define name expr)` raises the use-`set!` syntax error
precisely when looking `name` up through the entire scope chain yields a
truthy value (leaving the chain unchanged and `expr` unevaluated);
otherwise — name unbound anywhere, or its looked-up value falsy — it
evaluates `expr` in the current scope and writes the binding into the
current (first) frame, overwriting a falsy local binding. -/
theorem define_semantics :
    (∀ fuel : Nat, ∀ name expr : Value, ∀ scope : ScopeC, ∀ loc : IfLoc, ∀ v : Value,
        hashableV name = true → chainGet scope name = some v → truthy v = true →
        evalV (fuel + 1) (.rlist .plain [.sym "define", name, expr]) scope loc =
          .error (.synErr "use set! to modify a stored symbol")) ∧
    (∀ fuel : Nat, ∀ name expr : Value, ∀ scope : ScopeC, ∀ loc : IfLoc,
        hashableV name = true → chainGet scope name = none →
        evalV (fuel + 1) (.rlist .plain [.sym "define", name, expr]) scope loc =
          defineTail fuel name expr scope) ∧
    (∀ fuel : Nat, ∀ name expr : Value, ∀ scope : ScopeC, ∀ loc : IfLoc, ∀ v : Value,
        hashableV name = true → chainGet scope name = some v → truthy v = false →
        evalV (fuel + 1) (.rlist .plain [.sym "define", name, expr]) scope loc =
          defineTail fuel name expr scope) ∧
    (∀ f : Frame, ∀ r : List Frame, ∀ k v : Value,
        scopeSet (f :: r) k v = frameSet f k v :: r) := by
  refine ⟨?_, ?_, ?_, fun _ _ _ _ => rfl⟩
  · intro fuel name expr scope loc v hh hg ht
    rw [evalV_define_step, if_pos hh, hg]
    simp [ht]
  · intro fuel name expr scope loc hh hg
    rw [evalV_define_step, if_pos hh, hg]
  · intro fuel name expr scope loc v hh hg ht
    rw [evalV_define_step, if_pos hh, hg]
    simp [ht]

/-- C3 witness: the amended define semantics applied at concrete scopes,
discharging the hashability, lookup and truthiness hypotheses of all
three implications. -/
theorem define_semantics_witness :
    evalV 1 (.rlist .plain [.sym "define", .sym "y", .vint 1])
        [[], [(.sym "y", .vint 5)]] none =
      .error (.synErr "use set! to modify a stored symbol") ∧
    evalV 1 (.rlist .plain [.sym "define", .sym "z", .vint 1]) [[]] none =
      defineTail 0 (.sym "z") (.vint 1) [[]] ∧
    evalV 1 (.rlist .plain [.sym "define", .sym "x", .vint 1])
        [[(.sym "x", .vint 0)]] none =
      defineTail 0 (.sym "x") (.vint 1) [[(.sym "x", .vint 0)]] :=
  ⟨define_semantics.1 0 (.sym "y") (.vint 1) [[], [(.sym "y", .vint 5)]] none
      (.vint 5) rfl rfl rfl,
   define_semantics.2.1 0 (.sym "z") (.vint 1) [[]] none rfl rfl,
   define_semantics.2.2.1 0 (.sym "x") (.vint 1) [[(.sym "x", .vint 0)]] none
      (.vint 0) rfl rfl rfl⟩

/-- C4 counterexample: the claim states that a rest parameter absorbs
all surplus call arguments into a single List-valued binding.  With
exactly one argument, `nested_scope` binds the bare argument value
itself (here the integer `7`), and with several it binds a Python
tuple — neither is a List (`RList`-class) value. -/
theorem rest_binding_counterexample :
    nestedScope [[]] (.rlist .plain [.sym "*rest"]) [.vint 7] =
      .ok [[(Value.sym "rest", Value.vint 7)], []] ∧
    isListValue (.vint 7) = false ∧
    nestedScope [[]] (.rlist .plain [.sym "*rest"]) [.vint 1, .vint 2] =
      .ok [[(Value.sym "rest", Value.tup [.vint 1, .vint 2])], []] ∧
    isListValue (.tup [.vint 1, .vint 2]) = false :=
  ⟨rfl, rfl, rfl, rfl⟩

/-- C4 (amended): calling a closure whose parameter list has only fixed
names with the wrong number of arguments raises a binding-arity
`SyntaxError` ("missing/too many positional arguments", or "expected 1
positional argument, got n" for a single fixed name) — the source raises
`SyntaxError`, not a distinct `ArityError` class; a single star-marked
rest parameter binds, under the name with its stars stripped, the tuple
of all arguments when more than one is supplied, the lone argument value
itself when exactly one is supplied, and raises `IndexError` when none
is.  Any such error propagates unchanged out of `RiplFunc.__call__`. -/
theorem binding_arity_semantics :
    (∀ sc : ScopeC, ∀ params vals : List Value,
        params.length ≠ 1 → vals.length < params.length →
        nestedScope sc (.rlist .plain params) vals =
          .error (.synErr "missing positional arguments")) ∧
    (∀ sc : ScopeC, ∀ params vals : List Value,
        params.length ≠ 1 → params.length < vals.length →
        nestedScope sc (.rlist .plain params) vals =
          .error (.synErr "too many positional arguments")) ∧
    (∀ sc : ScopeC, ∀ s : String, ∀ vals : List Value,
        strStarts1 s = false → vals.length ≠ 1 →
        nestedScope sc (.rlist .plain [.sym s]) vals =
          .error (.synErr ("expected 1 positional argument, got " ++ toString vals.length))) ∧
    (∀ sc : ScopeC, ∀ s : String,
        strStarts1 s = true → strStarts2 s = false →
        nestedScope sc (.rlist .plain [.sym s]) [] = .error .indexErr) ∧
    (∀ sc : ScopeC, ∀ s : String, ∀ v : Value,
        strStarts1 s = true → strStarts2 s = false →
        nestedScope sc (.rlist .plain [.sym s]) [v] =
          .ok ([(Value.sym (dropStars s), v)] :: sc)) ∧
    (∀ sc : ScopeC, ∀ s : String, ∀ v1 v2 : Value, ∀ vs : List Value,
        strStarts1 s = true → strStarts2 s = false →
        nestedScope sc (.rlist .plain [.sym s]) (v1 :: v2 :: vs) =
          .ok ([(Value.sym (dropStars s), Value.tup (v1 :: v2 :: vs))] :: sc)) ∧
    (∀ fuel : Nat, ∀ params body : Value, ∀ cscope : ScopeC, ∀ vals : List Value, ∀ e : Err,
        nestedScope cscope params vals = .error e →
        riplFuncCall fuel params body cscope vals = .error e) := by
  refine ⟨?_, ?_, ?_, ?_, ?_, ?_, ?_⟩
  · intro sc params vals h1 h2
    simp only [nestedScope, pyLen, Except.bind, Bind.bind]
    rw [if_neg h1, if_pos (by omega)]
  · intro sc params vals h1 h2
    simp only [nestedScope, pyLen, Except.bind, Bind.bind]
    rw [if_neg h1, if_neg (by omega), if_pos h2]
  · intro sc s vals h1 h2
    have h2' : strStarts2 s = false := by
      cases hs : strStarts2 s
      · rfl
      · rw [strStarts2_starts1 s hs] at h1; exact absurd h1 (by simp)
    simp only [nestedScope, pyLen, Except.bind, Bind.bind, pyGetItem, toIndex,
      seqGet, paramStr]
    norm_num
    rw [h2', h1]
    simp [if_neg (by simpa using h2)]
  · intro sc s h1 h2
    simp only [nestedScope, pyLen, Except.bind, Bind.bind, pyGetItem, toIndex,
      seqGet, paramStr]
    norm_num
    rw [h2, h1]
    simp
  · intro sc s v h1 h2
    simp only [nestedScope, pyLen, Except.bind, Bind.bind, pyGetItem, toIndex,
      seqGet, paramStr]
    norm_num
    rw [h2, h1]
    simp
  · intro sc s v1 v2 vs h1 h2
    simp only [nestedScope, pyLen, Except.bind, Bind.bind, pyGetItem, toIndex,
      seqGet, paramStr]
    norm_num
    rw [h2, h1]
    simp
  · intro fuel params body cscope vals e he
    unfold riplFuncCall
    rw [he]

/-- C4 witness: the amended binding-arity semantics applied at concrete
parameter lists and argument counts, discharging every hypothesis. -/
theorem binding_arity_witness :
    nestedScope [[]] (.rlist .plain [.sym "a", .sym "b"]) [.vint 1] =
      .error (.synErr "missing positional arguments") ∧
    nestedScope [[]] (.rlist .plain [.sym "a", .sym "b"]) [.vint 1, .vint 2, .vint 3] =
      .error (.synErr "too many positional arguments") ∧
    nestedScope [[]] (.rlist .plain [.sym "a"]) [.vint 1, .vint 2] =
      .error (.synErr ("expected 1 positional argument, got " ++ toString 2)) ∧
    nestedScope [[]] (.rlist .plain [.sym "*rest"]) [] = .error .indexErr ∧
    nestedScope [[]] (.rlist .plain [.sym "*rest"]) [.vint 7] =
      .ok [[(Value.sym (dropStars "*rest"), Value.vint 7)], []] ∧
    nestedScope [[]] (.rlist .plain [.sym "*rest"]) [.vint 1, .vint 2] =
      .ok [[(Value.sym (dropStars "*rest"), Value.tup [.vint 1, .vint 2])], []] ∧
    riplFuncCall 5 (.rlist .plain [.sym "a", .sym "b"]) (.vint 0) [[]] [.vint 1] =
      .error (.synErr "missing positional arguments") :=
  ⟨binding_arity_semantics.1 [[]] [.sym "a", .sym "b"] [.vint 1]
      (by decide) (by decide),
   binding_arity_semantics.2.1 [[]] [.sym "a", .sym "b"] [.vint 1, .vint 2, .vint 3]
      (by decide) (by decide),
   binding_arity_semantics.2.2.1 [[]] "a" [.vint 1, .vint 2] (by decide) (by decide),
   binding_arity_semantics.2.2.2.1 [[]] "*rest" (by decide) (by decide),
   binding_arity_semantics.2.2.2.2.1 [[]] "*rest" (.vint 7) (by decide) (by decide),
   binding_arity_semantics.2.2.2.2.2.1 [[]] "*rest" (.vint 1) (.vint 2) []
      (by decide) (by decide),
   binding_arity_semantics.2.2.2.2.2.2 5 (.rlist .plain [.sym "a", .sym "b"])
      (.vint 0) [[]] [.vint 1] (.synErr "missing positional arguments")
      (binding_arity_semantics.1 [[]] [.sym "a", .sym "b"] [.vint 1]
        (by decide) (by decide))⟩

set_option maxHeartbeats 4000000 in
/-- C6: a compound form whose head is a directly-indexable collection
with exactly one argument is index syntax returning `head[arg]` without
evaluating either part: `([1 2 3] 0)` evaluates to `1`, `((1 2 3) 1)`
evaluates to `2`, and `('(1 2 3) 0)` raises a `SyntaxError`; a form whose
head is a quote form raises the dedicated "Cannot index into quoted list"
error.  (For the third concrete example the lexer's greedy `QUOTED_SEXP`
sugar swallows the trailing index, so the raised `SyntaxError` is the
"Invalid function call" arity error rather than the quoted-list message;
the claim's stated outcome — a `SyntaxError` — still holds.) -/
theorem index_syntax_semantics :
    runRipl 100 "([1 2 3] 0)" = .ok (.vint 1) ∧
    runRipl 100 "((1 2 3) 1)" = .ok (.vint 2) ∧
    isSynErrE (runRipl 100 "('(1 2 3) 0)") = true ∧
    (∀ fuel : Nat, ∀ h arg : Value, ∀ scope : ScopeC, ∀ loc : IfLoc,
        isContainer h = true →
        evalV (fuel + 1) (.rlist .plain [h, arg]) scope loc =
          (indexStep h arg).map (fun v => (v, scope))) ∧
    (∀ fuel : Nat, ∀ qargs : List Value, ∀ arg : Value, ∀ scope : ScopeC, ∀ loc : IfLoc,
        evalV (fuel + 1)
            (.rlist .plain [.rlist .plain (.sym "quote" :: qargs), arg]) scope loc =
          .error (.synErr "Cannot index into quoted list")) := by
  refine ⟨rfl, rfl, rfl, ?_, ?_⟩
  · intro fuel h arg scope loc hc
    exact evalV_container_head fuel h [arg] scope loc hc
  · intro fuel qargs arg scope loc
    rw [evalV_container_head fuel (.rlist .plain (.sym "quote" :: qargs)) [arg]
      scope loc rfl]
    rfl

/-- C6 witness: the general index-syntax conclusion applied at a concrete
container head, discharging the Container hypothesis. -/
theorem index_syntax_witness :
    evalV 1 (.rlist .plain [.vec true [.vint 9], .vint 0]) [[]] none =
      (indexStep (.vec true [.vint 9]) (.vint 0)).map
        (fun v => (v, ([[]] : ScopeC))) :=
  index_syntax_semantics.2.2.2.1 0 (.vec true [.vint 9]) (.vint 0) [[]] none rfl

set_option maxHeartbeats 4000000 in
/-- C10: a compound form whose head element is any Container value is
routed to the index-syntax branch before special-form or application
dispatch: when the form does not have exactly two elements it raises
`SyntaxError` "Invalid function call", and with exactly two it returns
the raw indexing outcome — in both cases the closed right-hand sides
contain no evaluation of the head or the argument, so such a head is
never evaluated and applied as a procedure.  Concretely, the lambda-form
head of `((lambda (x) x) 5)` is treated as an index base (raising
`IndexError` for index 5), and `((lambda (x) x))` raises the
"Invalid function call" `SyntaxError`. -/
theorem container_head_dispatch :
    (∀ fuel : Nat, ∀ h : Value, ∀ rest : List Value, ∀ scope : ScopeC, ∀ loc : IfLoc,
        isContainer h = true → rest.length ≠ 1 →
        evalV (fuel + 1) (.rlist .plain (h :: rest)) scope loc =
          .error (.synErr "Invalid function call")) ∧
    (∀ fuel : Nat, ∀ h arg : Value, ∀ scope : ScopeC, ∀ loc : IfLoc,
        isContainer h = true →
        evalV (fuel + 1) (.rlist .plain [h, arg]) scope loc =
          (indexStep h arg).map (fun v => (v, scope))) ∧
    runRipl 100 "((lambda (x) x) 5)" = .error .indexErr ∧
    runRipl 100 "((lambda (x) x))" = .error (.synErr "Invalid function call") := by
  refine ⟨?_, ?_, rfl, rfl⟩
  · intro fuel h rest scope loc hc hlen
    rw [evalV_container_head fuel h rest scope loc hc]
    rcases rest with _ | ⟨a, _ | ⟨b, t⟩⟩
    · rfl
    · exact absurd rfl hlen
    · rfl
  · intro fuel h arg scope loc hc
    exact evalV_container_head fuel h [arg] scope loc hc

/-- C10 witness: the dispatch conclusions applied at a concrete container
head with zero and with one argument, discharging the hypotheses. -/
theorem container_head_witness :
    evalV 1 (.rlist .plain [.vec true [.vint 9], .vint 0, .vint 0]) [[]] none =
      .error (.synErr "Invalid function call") ∧
    evalV 1 (.rlist .plain [.str "ab", .vint 0]) [[]] none =
      (indexStep (.str "ab") (.vint 0)).map (fun v => (v, ([[]] : ScopeC))) :=
  ⟨container_head_dispatch.1 0 (.vec true [.vint 9]) [.vint 0, .vint 0] [[]] none
      rfl (by decide),
   container_head_dispatch.2.1 0 (.str "ab") (.vint 0) [[]] none rfl⟩

/-- C7 counterexample: the claim states the parser raises a syntax error
on reaching end-of-input while a list literal is still open; but the
open-paren branch of `parse` has no such handler — hitting the end of the
stream inside an s-expression escapes as a bare `StopIteration`
(`RuntimeError` under PEP 479), not a `SyntaxError`. -/
theorem parse_unclosed_counterexample :
    parseOne 50 [⟨.parenOpen, .str "(", 1, 0⟩, ⟨.intT, .vint 1, 1, 1⟩] =
      .error .stopIter ∧
    isSynErrE (parseOne 50 [⟨.parenOpen, .str "(", 1, 0⟩, ⟨.intT, .vint 1, 1, 1⟩]) =
      false :=
  ⟨rfl, rfl⟩

/-- C7 (amended): the parser raises a syntax error on empty token input
(the guard fires for a concrete empty sequence, as the tests exercise
with `tokens=None`; the lexer's generator stream is instead truthy), on a
stray closing `)`, `]` or brace, on end-of-input inside a vector or dict
literal *after at least one body token has been read*, and on a dict
literal collecting an odd number of values — but end-of-input inside an
open *list* s-expression, and end-of-input immediately after `[` or the
opening brace (whose first `next(tokens)` precedes the
`try/except StopIteration`), escape as `StopIteration` rather than a
`SyntaxError` (the pipeline only rejects such inputs earlier, in the
lexer's outer-paren check); and a nested open delimiter inside a
vector/dict literal body raises a `TypeError`, since the body is
re-parsed from a plain list on which `next` is invalid. -/
theorem parse_error_semantics :
    (∀ fuel : Nat, parseOne (fuel + 1) [] =
        .error (.synErr "unexpected EOF while reading input")) ∧
    (∀ fuel : Nat, ∀ t : Tok, ∀ rest : List Tok,
        t.tag = .parenClose ∨ t.tag = .bracketClose ∨ t.tag = .braceClose →
        parseOne (fuel + 1) (t :: rest) =
          .error (.synErr ("unexpected " ++ tokValStr t.val ++ " in input (line "
            ++ toString t.line ++ " col " ++ toString t.col ++ ")"))) ∧
    (∀ fuel : Nat, ∀ t : Tok,
        t.tag = .bracketOpen ∨ t.tag = .braceOpen →
        parseOne (fuel + 1) [t] = .error .stopIter) ∧
    (∀ fuel : Nat, ∀ t u : Tok, ∀ toks : List Tok,
        t.tag = .bracketOpen → (∀ w ∈ u :: toks, w.tag ≠ LTag.bracketClose) →
        parseOne (fuel + 1) (t :: u :: toks) =
          .error (.synErr "missing closing ] in list literal.")) ∧
    (∀ fuel : Nat, ∀ t u : Tok, ∀ toks : List Tok,
        t.tag = .braceOpen → (∀ w ∈ u :: toks, w.tag ≠ LTag.braceClose) →
        parseOne (fuel + 1) (t :: u :: toks) =
          .error (.synErr ("missing closing " ++ "\x7d" ++ " in dict literal."))) ∧
    parseOne 50 [⟨.braceOpen, .str "b", 1, 0⟩, ⟨.intT, .vint 1, 1, 1⟩,
        ⟨.intT, .vint 2, 1, 3⟩, ⟨.intT, .vint 3, 1, 5⟩, ⟨.braceClose, .str "b", 1, 7⟩] =
      .error (.synErr "Invalid dict literal") ∧
    parseOne 50 [⟨.bracketOpen, .str "[", 1, 0⟩, ⟨.parenOpen, .str "(", 1, 1⟩,
        ⟨.bracketClose, .str "]", 1, 2⟩] =
      .error (.typeErr "list object is not an iterator") := by
  refine ⟨fun _ => rfl, ?_, ?_, ?_, ?_, rfl, rfl⟩
  · intro fuel t rest h
    obtain ⟨tag, val, line, col⟩ := t
    simp only at h
    rcases h with h | h | h <;> subst h <;> rfl
  · intro fuel t h
    obtain ⟨tag, val, line, col⟩ := t
    simp only at h
    rcases h with h | h <;> subst h <;> rfl
  · intro fuel t u toks h hn
    obtain ⟨tag, val, line, col⟩ := t
    simp only at h
    subst h
    have hstep : parseOne (fuel + 1) (⟨.bracketOpen, val, line, col⟩ :: u :: toks) =
        (match collectVec (u :: toks) [] with
         | none => Except.error (Err.synErr "missing closing ] in list literal.")
         | some (tmp, remaining) =>
             (parseAll tmp).bind
               (fun vs => Except.ok (Value.vec true vs, remaining))) := rfl
    rw [hstep, collectVec_none (u :: toks) [] hn]
  · intro fuel t u toks h hn
    obtain ⟨tag, val, line, col⟩ := t
    simp only at h
    subst h
    have hstep : parseOne (fuel + 1) (⟨.braceOpen, val, line, col⟩ :: u :: toks) =
        (match collectDict (u :: toks) [] with
         | none => Except.error (Err.synErr ("missing closing " ++ "\x7d"
             ++ " in dict literal."))
         | some (tmp, remaining) =>
             (parseAll tmp).bind (fun vs =>
               if vs.length % 2 ≠ 0 then Except.error (Err.synErr "Invalid dict literal")
               else (buildDict (pairUp vs) []).bind (fun d =>
                 Except.ok (Value.dict d, remaining)))) := rfl
    rw [hstep, collectDict_none (u :: toks) [] hn]

/-- C7 witness: the amended parse-error semantics applied at concrete
token streams, discharging the tag and no-closer hypotheses of every
conjunct that has them. -/
theorem parse_error_witness :
    parseOne 1 [] = .error (.synErr "unexpected EOF while reading input") ∧
    parseOne 1 [⟨.bracketClose, .str "]", 1, 0⟩] =
      .error (.synErr ("unexpected " ++ tokValStr (.str "]") ++ " in input (line "
        ++ toString 1 ++ " col " ++ toString 0 ++ ")")) ∧
    parseOne 1 [⟨.bracketOpen, .str "[", 1, 0⟩] = .error .stopIter ∧
    parseOne 1 [⟨.braceOpen, .str "b", 1, 0⟩] = .error .stopIter ∧
    parseOne 1 [⟨.bracketOpen, .str "[", 1, 0⟩, ⟨.intT, .vint 1, 1, 1⟩] =
      .error (.synErr "missing closing ] in list literal.") ∧
    parseOne 1 [⟨.braceOpen, .str "b", 1, 0⟩, ⟨.intT, .vint 1, 1, 1⟩] =
      .error (.synErr ("missing closing " ++ "\x7d" ++ " in dict literal.")) :=
  ⟨parse_error_semantics.1 0,
   parse_error_semantics.2.1 0 ⟨.bracketClose, .str "]", 1, 0⟩ [] (by simp),
   parse_error_semantics.2.2.1 0 ⟨.bracketOpen, .str "[", 1, 0⟩ (by simp),
   parse_error_semantics.2.2.1 0 ⟨.braceOpen, .str "b", 1, 0⟩ (by simp),
   parse_error_semantics.2.2.2.1 0 ⟨.bracketOpen, .str "[", 1, 0⟩
      ⟨.intT, .vint 1, 1, 1⟩ [] (by rfl)
      (by intro w hw; simp at hw; subst hw; decide),
   parse_error_semantics.2.2.2.2.1 0 ⟨.braceOpen, .str "b", 1, 0⟩
      ⟨.intT, .vint 1, 1, 1⟩ [] (by rfl)
      (by intro w hw; simp at hw; subst hw; decide)⟩

/-- C8: whenever the lexer's scan meets a character that no real token
pattern recognises (the master regex's final catch-all fires), it raises
a `SyntaxError` identifying the offending character; and a (stripped)
input that starts with an open paren but does not end with a close paren
is rejected with the unclosed-s-expression `SyntaxError` before any token
is produced. -/
theorem lex_error_semantics :
    (∀ fuel : Nat, ∀ s : List Char, ∀ pos ln ls n : Nat, ∀ txt : List Char,
        firstMatch s = some (.synErrT, n, txt) →
        lexLoop (fuel + 1) s pos ln ls =
          .error (.synErr ("Unable to parse: " ++ String.mk txt))) ∧
    (∀ fuel : Nat, ∀ input : List Char,
        (pyStrip input).head? = some '(' →
        (pyStrip input).getLast? ≠ some ')' →
        lexTop (fuel + 1) input =
          .error (.synErr "Unclosed s-expression in input")) := by
  constructor
  · intro fuel s pos ln ls n txt h
    unfold lexLoop
    rw [h]
  · intro fuel input h1 h2
    rcases hs : pyStrip input with _ | ⟨c, r⟩ <;> rw [hs] at h1 h2
    · simp at h1
    · simp only [List.head?] at h1
      injection h1 with h1
      subst h1
      have hstep : lexTop (fuel + 1) input =
          (if ('(' :: r).getLast? = some ')' then lexLoop fuel ('(' :: r) 0 1 0
           else Except.error (Err.synErr "Unclosed s-expression in input")) := by
        unfold lexTop
        rw [hs]
        rfl
      rw [hstep, if_neg h2]

/-- C8 witness: the lexer-error semantics applied at the concrete inputs
`#` (the catch-all's character) and `(foo`, discharging the match and
paren-shape hypotheses. -/
theorem lex_error_witness :
    lexLoop 1 ['#'] 0 1 0 = .error (.synErr ("Unable to parse: " ++ String.mk ['#'])) ∧
    lexTop 1 "(foo".toList = .error (.synErr "Unclosed s-expression in input") :=
  ⟨lex_error_semantics.1 0 ['#'] 0 1 0 1 ['#'] rfl,
   lex_error_semantics.2 0 "(foo".toList rfl (by decide)⟩

end Ripl


